import Mathlib

/-!
Shallow embedding of the outfit-selection core of the Mazzura backend
(`src/main.py`, with the document shapes of `src/schemas.py`).

Wardrobe items are fetched from MongoDB as raw documents (Python dicts),
so an item is modelled as an association list from attribute names to
values (`Doc`).  The selection logic of `pick_from` and
`generate_outfit` is translated line by line:

* Python truthiness on optional strings (`if req.mood:`) treats both
  `None` and `""` as false; this is modelled explicitly.
* `(i.get("color") or "").lower()` maps a missing/null/empty color to
  the empty string before lower-casing.
* `x.get("warmth") or 0` maps a missing/null warmth to `0` (and `or`
  is the identity on integers, `0 or 0 == 0`).
* Python `sorted` is a stable sort on the given key.  A stable sort is
  extensionally unique, so it is modelled by the structurally recursive
  stable insertion sort `sortByKey` (the choice of algorithm is
  irrelevant; insertion sort keeps every definition kernel-computable).
* Python's substring test `a in b` is `substr`; `str.lower()` is
  `lowerStr`, a per-character lower-casing (faithful for the ASCII
  vocabulary the endpoint works with).
* Persistence (`create_document("outfit", ...)`) is modelled by
  returning the list of records written during the call, so that
  "persist at most once, only on success" is a statement about that
  list.
-/

namespace Mazzura

/-- A document value, as stored in a wardrobe-item document. -/
inductive Val where
  | s (v : String)
  | i (n : Int)
  | ls (vs : List String)
  | null
deriving DecidableEq, Repr

/-- A raw document: an attribute map (Python dict) from keys to values. -/
abbrev Doc := List (String × Val)

/-- Python `str.lower()` (per-character lower-casing). -/
def lowerStr (s : String) : String := ⟨s.data.map Char.toLower⟩

/-- Python substring test `needle in hay` on character lists. -/
def substr (needle : List Char) : List Char → Bool
  | [] => needle.isEmpty
  | c :: rest => needle.isPrefixOf (c :: rest) || substr needle rest

/-- Python substring test on strings: `strIn a b` is Python `a in b`. -/
def strIn (needle hay : String) : Bool := substr needle.data hay.data

/-- `(i.get("color") or "")` of `main.py` line 165: the item's color,
with a missing, null or empty color becoming `""`. -/
def getColor (i : Doc) : String :=
  match List.lookup "color" i with
  | some (Val.s c) => c
  | _ => ""

/-- `i.get("tags", [])` of `main.py` line 165. -/
def getTags (i : Doc) : List String :=
  match List.lookup "tags" i with
  | some (Val.ls ts) => ts
  | _ => []

/-- `(x.get("warmth") or 0)` of `main.py` lines 172 and 175: the item's
warmth, defaulting to `0` when absent or null. -/
def getWarmth (i : Doc) : Int :=
  match List.lookup "warmth" i with
  | some (Val.i n) => n
  | _ => 0

/-- `(it.get("category") or "").lower()` of `main.py` line 156: the
normalized category label. -/
def getCategory (i : Doc) : String :=
  lowerStr (match List.lookup "category" i with
    | some (Val.s c) => c
    | _ => "")

/-- The bucket of a normalized category: `by_cat` of `main.py` lines
154-157 groups items by `getCategory` preserving order, so
`by_cat.get(cat, [])` is exactly the order-preserving filter. -/
def bucket (items : List Doc) (cat : String) : List Doc :=
  items.filter (fun i => getCategory i == cat)

/-- The mood-match predicate of `main.py` line 165: the item's
lower-cased color is a substring of the (already lower-cased) mood
text, or one of its lower-cased tags is. -/
def moodMatch (mood : String) (i : Doc) : Bool :=
  strIn (lowerStr (getColor i)) mood || (getTags i).any (fun t => strIn (lowerStr t) mood)

/-- Insert `a` into a list sorted by ascending `key`, before the first
element of key `≥ key a` (so earlier-arriving elements of equal key
stay first: stability). -/
def insertLe {α : Type} (key : α → Int) (a : α) : List α → List α
  | [] => [a]
  | b :: t => if key a ≤ key b then a :: b :: t else b :: insertLe key a t

/-- Python `sorted(l, key=key)`: the stable sort of `l` by ascending
integer key.  Stable sorting functions are extensionally unique, so
this insertion sort is *the* model of Python's (timsort) `sorted`. -/
def sortByKey {α : Type} (key : α → Int) : List α → List α
  | [] => []
  | a :: t => insertLe key a (sortByKey key t)

/-- The mood branch of `pick_from` (`main.py` lines 163-167): `none`
when the mood is absent or empty (Python truthiness) or when no item
matches; otherwise the first matching item (`colored[0]`). -/
def moodPickOf (mood : Option String) (cat_list : List Doc) : Option Doc :=
  match mood with
  | some m =>
      if m = "" then none
      else (cat_list.filter (moodMatch (lowerStr m))).head?
  | none => none

/-- The weather branch of `pick_from` (`main.py` lines 169-176): for a
truthy weather lower-casing to cold/chilly (resp. hot/warm), the head
of the stable sort by descending (resp. ascending) warmth; `none` when
the weather is absent, empty, or unrecognized. -/
def weatherPickOf (weather : Option String) (cat_list : List Doc) : Option Doc :=
  match weather with
  | some wRaw =>
      if wRaw = "" then none
      else
        if ["cold", "chilly"].contains (lowerStr wRaw) then
          (sortByKey (fun i => -(getWarmth i)) cat_list).head?
        else if ["hot", "warm"].contains (lowerStr wRaw) then
          (sortByKey getWarmth cat_list).head?
        else none
  | none => none

/-- `pick_from` of `main.py` lines 159-177: `None` on an empty bucket;
otherwise the mood pick if any, else the weather pick if any, else the
first item `cat_list[0]`. -/
def pick_from (mood weather : Option String) (cat_list : List Doc) : Option Doc :=
  match cat_list with
  | [] => none
  | x :: _ =>
    match moodPickOf mood cat_list with
    | some d => some d
    | none =>
      match weatherPickOf weather cat_list with
      | some d => some d
      | none => some x

/-- Whether the mood branch of `pick_from` applies: mood truthy and
some item in the bucket matches it. -/
def moodApplies (mood : Option String) (cat_list : List Doc) : Bool :=
  match mood with
  | some m => if m = "" then false else cat_list.any (moodMatch (lowerStr m))
  | none => false

/-- The lower-cased mood text (`req.mood.lower()`, empty when absent). -/
def moodText (mood : Option String) : String := lowerStr (mood.getD "")

/-- Whether the weather is truthy and lower-cases to one of the four
recognized words of `main.py` lines 171 and 174. -/
def weatherRecognized (weather : Option String) : Bool :=
  match weather with
  | some w =>
      if w = "" then false
      else ["cold", "chilly"].contains (lowerStr w) || ["hot", "warm"].contains (lowerStr w)
  | none => false

/-- `req.weather and req.weather.lower() in ["cold", "chilly"]` of
`main.py` line 186 (Python truthiness on the first conjunct). -/
def weatherCold (weather : Option String) : Bool :=
  match weather with
  | some w => if w = "" then false else ["cold", "chilly"].contains (lowerStr w)
  | none => false

/-- The item snapshot of `main.py` lines 183 and 189: every attribute
of the selected document except the internal `_id` key.  (The
`str(v) if k == "_id" else v` conversion is dead code: `_id` is
filtered out of the comprehension.) -/
def snapshot (d : Doc) : Doc := d.filter (fun kv => kv.1 != "_id")

/-- The contribution of one category slot to the selection: the
snapshot of the pick, or nothing when the pick is `None` or an empty
dict (Python truthiness of `if sel:`). -/
def slotPick (mood weather : Option String) (items : List Doc) (cat : String) : List Doc :=
  match pick_from mood weather (bucket items cat) with
  | some d => if d.isEmpty then [] else [snapshot d]
  | none => []

/-- The selection-assembly loop of `main.py` lines 179-189: fold the
fixed slot order top, bottom, footwear appending each truthy pick's
snapshot, then append an outerwear pick the same way only when the
weather is cold/chilly. -/
def assemble (mood weather : Option String) (items : List Doc) : List Doc :=
  let base := ["top", "bottom", "footwear"].foldl
    (fun acc cat =>
      match pick_from mood weather (bucket items cat) with
      | some d => if d.isEmpty then acc else acc ++ [snapshot d]
      | none => acc) []
  if weatherCold weather then
    match pick_from mood weather (bucket items "outerwear") with
    | some d => if d.isEmpty then base else base ++ [snapshot d]
    | none => base
  else base

/-- The outfit-generation request (`OutfitRequest` of `main.py`). -/
structure Request where
  email : String
  mood : Option String
  weather : Option String
  event : Option String
deriving DecidableEq, Repr

/-- The two domain failures of the generation endpoint: `NotFound`
(HTTP 404, `main.py` line 151) and `InvalidState` (HTTP 400, line 192),
each carrying the detail string raised by the code. -/
inductive GenError where
  | notFound (detail : String)
  | invalidState (detail : String)
deriving DecidableEq, Repr

/-- The persisted `Outfit` document (`schemas.py` lines 39-49). -/
structure OutfitRec where
  owner_email : String
  title : String
  items : List Doc
  mood : Option String
  weather : Option String
  event : Option String
deriving DecidableEq, Repr

/-- The successful response body of `main.py` line 203 (the
store-generated `id` is produced by the external Outfit Store and is
not part of the core computation). -/
structure Response where
  items : List Doc
  title : String
deriving DecidableEq, Repr

/-- `req.mood or 'style'` / `req.weather or 'weather'` of `main.py`
line 196: Python `or` falls back on `None` and on `""`. -/
def orDefault (o : Option String) (dflt : String) : String :=
  match o with
  | some s => if s = "" then dflt else s
  | none => dflt

/-- `generate_outfit` of `main.py` lines 147-203, as a function of the
request and the fetched wardrobe documents.  The second component is
the list of outfit records written to the Outfit Store during the
call. -/
def generate_outfit (req : Request) (items : List Doc) :
    Except GenError Response × List OutfitRec :=
  if items.isEmpty then
    (Except.error (GenError.notFound "No wardrobe items found"), [])
  else
    let selected := assemble req.mood req.weather items
    if selected.isEmpty then
      (Except.error (GenError.invalidState "Could not compose an outfit from wardrobe"), [])
    else
      let title := "Auto outfit - " ++ orDefault req.mood "style" ++ " / " ++
        orDefault req.weather "weather"
      let outfit : OutfitRec :=
        ⟨req.email, title, selected, req.mood, req.weather, req.event⟩
      (Except.ok ⟨selected, title⟩, [outfit])

/-! Concrete wardrobe documents and requests used to instantiate the
theorems (shapes follow the `Wardrobeitem` schema of `schemas.py`). -/

/-- A red top with tags, warmth 2 and a store-assigned `_id`. -/
def itemRedTee : Doc :=
  [("owner_email", Val.s "u@example.com"), ("name", Val.s "Red Tee"),
   ("category", Val.s "top"), ("color", Val.s "red"),
   ("tags", Val.ls ["casual"]), ("warmth", Val.i 2), ("_id", Val.s "64f07a1b")]

/-- A blue top of warmth 8. -/
def itemBlue : Doc :=
  [("category", Val.s "top"), ("color", Val.s "blue"), ("warmth", Val.i 8)]

/-- A colorless top of warmth 5. -/
def itemW5 : Doc := [("category", Val.s "top"), ("warmth", Val.i 5)]

/-- A top with no color attribute at all. -/
def itemNoColor : Doc := [("category", Val.s "top")]

/-- A top whose color is the one-letter string "a". -/
def itemColorA : Doc := [("category", Val.s "top"), ("color", Val.s "a")]

/-- A top whose color is the empty string. -/
def itemColorEmpty : Doc := [("category", Val.s "top"), ("color", Val.s "")]

/-- An accessory (not a top/bottom/footwear/outerwear item). -/
def itemAccessory : Doc := [("category", Val.s "accessory"), ("name", Val.s "Belt")]

/-- An outerwear item of warmth 9. -/
def itemCoat : Doc :=
  [("category", Val.s "Outerwear"), ("name", Val.s "Coat"), ("warmth", Val.i 9)]

/-- A request with mood "bold" and no weather. -/
def reqBold : Request := ⟨"u@example.com", some "bold", none, none⟩

/-- A request with weather "hot" and no mood. -/
def reqHot : Request := ⟨"u@example.com", none, some "hot", none⟩

/-- A request with weather "chilly" and no mood. -/
def reqChilly : Request := ⟨"u@example.com", none, some "chilly", none⟩

/-! Auxiliary lemmas about the embedded operations. -/

/-- The head of a filtered list is the first element satisfying the
predicate, so Python `colored[0]` is a first-match-wins rule. -/
theorem filter_head?_eq_find? {α : Type} (p : α → Bool) :
    ∀ l : List α, (l.filter p).head? = l.find? p := by
  intro l
  induction l with
  | nil => rfl
  | cons a t ih =>
    by_cases h : p a = true
    · rw [List.filter_cons_of_pos h, List.find?_cons_of_pos _ h]
      rfl
    · rw [List.filter_cons_of_neg (by simpa using h), List.find?_cons_of_neg _ h]
      exact ih

/-- The empty string is a Python substring of every string. -/
theorem substr_nil_left : ∀ hay : List Char, substr [] hay = true := by
  intro hay
  induction hay with
  | nil => rfl
  | cons c t ih => simp [substr, ih, List.isPrefixOf]

/-- `strIn "" s` always holds. -/
theorem strIn_empty (s : String) : strIn "" s = true := substr_nil_left s.data

/-- Lower-casing the empty string gives the empty string. -/
theorem lowerStr_empty : lowerStr "" = "" := rfl

/-- `find?` only depends on the predicate's values on the list. -/
theorem find?_congr_of_mem {α : Type} {p q : α → Bool} :
    ∀ {l : List α}, (∀ e ∈ l, p e = q e) → l.find? p = l.find? q := by
  intro l
  induction l with
  | nil => intro _; rfl
  | cons a t ih =>
    intro h
    have ha : p a = q a := h a (List.mem_cons_self a t)
    by_cases hq : q a = true
    · rw [List.find?_cons_of_pos _ (ha ▸ hq), List.find?_cons_of_pos _ hq]
    · rw [List.find?_cons_of_neg _ (by rw [ha]; exact hq), List.find?_cons_of_neg _ hq]
      exact ih fun e he => h e (List.mem_cons_of_mem a he)

/-- Head of the stable sort by an integer key: it is a member of the
list, its key is minimal, and it is the first element of the original
list attaining a key `≤` its own (the stable tie-break). -/
theorem head_sortByKey {α : Type} (key : α → Int) :
    ∀ l : List α, l ≠ [] →
      ∃ d, (sortByKey key l).head? = some d ∧ d ∈ l ∧
        (∀ e ∈ l, key d ≤ key e) ∧
        l.find? (fun e => decide (key e ≤ key d)) = some d := by
  intro l
  induction l with
  | nil => intro h; exact absurd rfl h
  | cons a t ih =>
    intro _
    cases t with
    | nil =>
      refine ⟨a, rfl, List.mem_cons_self a [], ?_, ?_⟩
      · intro e he
        rcases List.mem_cons.mp he with rfl | he2
        · exact le_refl _
        · cases he2
      · rw [List.find?_cons_of_pos _ (by simp)]
    | cons b t2 =>
      obtain ⟨d, hd_head, hd_mem, hd_min, hd_find⟩ := ih (by simp)
      obtain ⟨rest, hrest⟩ : ∃ rest, sortByKey key (b :: t2) = d :: rest := by
        cases hs : sortByKey key (b :: t2) with
        | nil => rw [hs] at hd_head; cases hd_head
        | cons x xs =>
          rw [hs] at hd_head
          simp only [List.head?_cons, Option.some.injEq] at hd_head
          exact ⟨xs, by rw [hd_head]⟩
      by_cases hle : key a ≤ key d
      · refine ⟨a, ?_, List.mem_cons_self a (b :: t2), ?_, ?_⟩
        · show (insertLe key a (sortByKey key (b :: t2))).head? = some a
          rw [hrest]
          simp [insertLe, hle]
        · intro e he
          rcases List.mem_cons.mp he with rfl | he2
          · exact le_refl _
          · exact le_trans hle (hd_min e he2)
        · rw [List.find?_cons_of_pos _ (by simp)]
      · push_neg at hle
        refine ⟨d, ?_, List.mem_cons_of_mem a hd_mem, ?_, ?_⟩
        · show (insertLe key a (sortByKey key (b :: t2))).head? = some d
          rw [hrest]
          simp only [insertLe]
          rw [if_neg (by omega)]
          rfl
        · intro e he
          rcases List.mem_cons.mp he with rfl | he2
          · exact le_of_lt hle
          · exact hd_min e he2
        · rw [List.find?_cons_of_neg _ (by simp; omega)]
          exact hd_find

/-- When the mood branch applies, the mood pick is the first mood
match of the bucket. -/
theorem moodPickOf_of_applies {mood : Option String} {l : List Doc}
    (h : moodApplies mood l = true) :
    ∃ d, moodPickOf mood l = some d ∧
      l.find? (moodMatch (moodText mood)) = some d := by
  cases mood with
  | none => simp [moodApplies] at h
  | some m =>
    simp only [moodApplies] at h
    by_cases hm : m = ""
    · rw [if_pos hm] at h; cases h
    · rw [if_neg hm] at h
      obtain ⟨x, hx, hpx⟩ := List.any_eq_true.mp h
      have hfind : ∃ d, l.find? (moodMatch (lowerStr m)) = some d := by
        cases hf : l.find? (moodMatch (lowerStr m)) with
        | none => exact absurd hpx (by simpa using List.find?_eq_none.mp hf x hx)
        | some d => exact ⟨d, rfl⟩
      obtain ⟨d, hd⟩ := hfind
      refine ⟨d, ?_, ?_⟩
      · simp only [moodPickOf, if_neg hm]
        rw [filter_head?_eq_find?]
        exact hd
      · exact hd

/-- When the mood branch does not apply, the mood pick is `none`. -/
theorem moodPickOf_of_not_applies {mood : Option String} {l : List Doc}
    (h : moodApplies mood l = false) :
    moodPickOf mood l = none := by
  cases mood with
  | none => rfl
  | some m =>
    simp only [moodApplies] at h
    by_cases hm : m = ""
    · simp [moodPickOf, hm]
    · rw [if_neg hm] at h
      simp only [moodPickOf, if_neg hm]
      rw [filter_head?_eq_find?]
      refine List.find?_eq_none.mpr fun x hx hpx => ?_
      exact absurd (List.any_eq_true.mpr ⟨x, hx, hpx⟩) (by rw [h]; simp)

/-- A mood pick is an element of its bucket. -/
theorem moodPickOf_mem {mood : Option String} {l : List Doc} {d : Doc}
    (h : moodPickOf mood l = some d) : d ∈ l := by
  cases mood with
  | none => cases h
  | some m =>
    simp only [moodPickOf] at h
    by_cases hm : m = ""
    · rw [if_pos hm] at h; cases h
    · rw [if_neg hm, filter_head?_eq_find?] at h
      exact List.mem_of_find?_eq_some h

/-- An unrecognized (or absent, or empty) weather yields no weather pick. -/
theorem weatherPickOf_of_not_recognized {weather : Option String} {l : List Doc}
    (h : weatherRecognized weather = false) :
    weatherPickOf weather l = none := by
  cases weather with
  | none => rfl
  | some w =>
    simp only [weatherRecognized] at h
    simp only [weatherPickOf]
    by_cases hw : w = ""
    · rw [if_pos hw]
    · rw [if_neg hw] at h
      obtain ⟨h1, h2⟩ := Bool.or_eq_false_iff.mp h
      rw [if_neg hw, h1, h2]
      simp

/-- A weather pick is an element of its bucket. -/
theorem weatherPickOf_mem {weather : Option String} {l : List Doc} {d : Doc}
    (h : weatherPickOf weather l = some d) : d ∈ l := by
  cases weather with
  | none => cases h
  | some w =>
    simp only [weatherPickOf] at h
    by_cases hw : w = ""
    · rw [if_pos hw] at h; cases h
    · rw [if_neg hw] at h
      have hl : l ≠ [] := by
        intro he
        subst he
        rw [show sortByKey (fun i => -(getWarmth i)) ([] : List Doc) = [] from rfl,
          show sortByKey getWarmth ([] : List Doc) = [] from rfl] at h
        split at h <;> simp_all
      by_cases hc : (["cold", "chilly"].contains (lowerStr w)) = true
      · rw [if_pos hc] at h
        obtain ⟨d0, h0, hmem, _, _⟩ := head_sortByKey (fun i => -(getWarmth i)) l hl
        rw [h0] at h
        cases h
        exact hmem
      · rw [if_neg hc] at h
        by_cases hh : (["hot", "warm"].contains (lowerStr w)) = true
        · rw [if_pos hh] at h
          obtain ⟨d0, h0, hmem, _, _⟩ := head_sortByKey getWarmth l hl
          rw [h0] at h
          cases h
          exact hmem
        · rw [if_neg hh] at h; cases h

/-- A pick is always an element of its bucket. -/
theorem pick_from_mem {mood weather : Option String} {l : List Doc} {d : Doc}
    (h : pick_from mood weather l = some d) : d ∈ l := by
  cases l with
  | nil => cases h
  | cons x t =>
    simp only [pick_from] at h
    cases hm : moodPickOf mood (x :: t) with
    | some d0 =>
      rw [hm] at h
      cases h
      exact moodPickOf_mem hm
    | none =>
      rw [hm] at h
      cases hw : weatherPickOf weather (x :: t) with
      | some d0 =>
        rw [hw] at h
        cases h
        exact weatherPickOf_mem hw
      | none =>
        rw [hw] at h
        cases h
        exact List.mem_cons_self _ _

/-- A non-empty bucket always yields a pick, and the pick is a member. -/
theorem pick_from_of_ne_nil (mood weather : Option String) {l : List Doc} (h : l ≠ []) :
    ∃ d, pick_from mood weather l = some d ∧ d ∈ l := by
  cases l with
  | nil => exact absurd rfl h
  | cons x t =>
    cases hp : pick_from mood weather (x :: t) with
    | some d => exact ⟨d, rfl, pick_from_mem hp⟩
    | none =>
      exfalso
      simp only [pick_from] at hp
      cases hm : moodPickOf mood (x :: t) with
      | some d0 => rw [hm] at hp; cases hp
      | none =>
        rw [hm] at hp
        cases hw : weatherPickOf weather (x :: t) with
        | some d0 => rw [hw] at hp; cases hp
        | none => rw [hw] at hp; cases hp

/-- Membership in a bucket is membership in the wardrobe with the
matching normalized category. -/
theorem mem_of_bucket {items : List Doc} {c : String} {d : Doc}
    (h : d ∈ bucket items c) : d ∈ items ∧ getCategory d = c := by
  have h2 := List.mem_filter.mp h
  exact ⟨h2.1, by simpa using h2.2⟩

/-- A document in a bucket with a non-empty category label is itself a
non-empty dict (it carries at least the category attribute). -/
theorem bucket_doc_ne_nil {items : List Doc} {c : String} {d : Doc}
    (hc : c ≠ "") (h : d ∈ bucket items c) : d ≠ [] := by
  intro he
  subst he
  have h2 : getCategory ([] : Doc) = c := (mem_of_bucket h).2
  exact hc (h2.symm.trans (rfl : getCategory ([] : Doc) = ""))

/-- An empty bucket contributes nothing to the selection. -/
theorem slotPick_of_bucket_nil (mood weather : Option String) (items : List Doc)
    (c : String) (h : bucket items c = []) :
    slotPick mood weather items c = [] := by
  simp [slotPick, h, pick_from]

/-- A non-empty bucket with a non-empty category label contributes
exactly one snapshot to the selection. -/
theorem slotPick_of_bucket_ne_nil (mood weather : Option String) (items : List Doc)
    (c : String) (hc : c ≠ "") (h : bucket items c ≠ []) :
    ∃ d, d ∈ bucket items c ∧ slotPick mood weather items c = [snapshot d] := by
  obtain ⟨d, hpick, hmem⟩ := pick_from_of_ne_nil mood weather h
  refine ⟨d, hmem, ?_⟩
  simp only [slotPick, hpick]
  rw [if_neg (by simpa [List.isEmpty_iff] using bucket_doc_ne_nil hc hmem)]

/-- Closed form of the selection-assembly loop. -/
theorem assemble_closed (mood weather : Option String) (items : List Doc) :
    assemble mood weather items =
      slotPick mood weather items "top" ++ slotPick mood weather items "bottom" ++
        slotPick mood weather items "footwear" ++
        (if weatherCold weather = true then slotPick mood weather items "outerwear"
         else []) := by
  have step : ∀ (acc : List Doc) (c : String),
      (match pick_from mood weather (bucket items c) with
        | some d => if d.isEmpty then acc else acc ++ [snapshot d]
        | none => acc) = acc ++ slotPick mood weather items c := by
    intro acc c
    simp only [slotPick]
    cases pick_from mood weather (bucket items c) with
    | none => simp
    | some d =>
      by_cases hd : d.isEmpty <;> simp [hd]
  simp only [assemble, List.foldl]
  by_cases hw : weatherCold weather = true
  · rw [if_pos hw, if_pos hw, step, step, step, step]
    simp [List.append_assoc]
  · rw [if_neg hw, if_neg hw, step, step, step]
    simp

/-- The success branch of `generate_outfit`, spelled out. -/
theorem generate_outfit_ok (req : Request) (items : List Doc) (h1 : items ≠ [])
    (h2 : assemble req.mood req.weather items ≠ []) :
    generate_outfit req items =
      (Except.ok ⟨assemble req.mood req.weather items,
          "Auto outfit - " ++ orDefault req.mood "style" ++ " / " ++
            orDefault req.weather "weather"⟩,
        [⟨req.email,
          "Auto outfit - " ++ orDefault req.mood "style" ++ " / " ++
            orDefault req.weather "weather",
          assemble req.mood req.weather items, req.mood, req.weather, req.event⟩]) := by
  simp only [generate_outfit]
  rw [if_neg (by simpa [List.isEmpty_iff] using h1),
    if_neg (by simpa [List.isEmpty_iff] using h2)]

/-- The invalid-state branch of `generate_outfit`, spelled out. -/
theorem generate_outfit_invalid (req : Request) (items : List Doc) (h1 : items ≠ [])
    (h2 : assemble req.mood req.weather items = []) :
    generate_outfit req items =
      (Except.error (GenError.invalidState "Could not compose an outfit from wardrobe"),
        []) := by
  simp only [generate_outfit]
  rw [if_neg (by simpa [List.isEmpty_iff] using h1),
    if_pos (by simpa [List.isEmpty_iff] using h2)]

/-- The `_id` key never survives a snapshot. -/
theorem lookup_snapshot_id (d : Doc) : List.lookup "_id" (snapshot d) = none := by
  induction d with
  | nil => rfl
  | cons kv t ih =>
    by_cases h : kv.1 = "_id"
    · simpa [snapshot, List.filter_cons, h] using ih
    · have hbne : (kv.1 != "_id") = true := by simpa using h
      have hbeq : ("_id" == kv.1) = false := by
        simp [BEq.beq]
        exact fun he => h he.symm
      simpa [snapshot, List.filter_cons, hbne, List.lookup, hbeq] using ih

/-- Every element of an assembled selection is the snapshot of some
wardrobe document. -/
theorem mem_assemble {mood weather : Option String} {items : List Doc} {s : Doc}
    (hs : s ∈ assemble mood weather items) :
    ∃ d, d ∈ items ∧ s = snapshot d := by
  have single : ∀ c : String, s ∈ slotPick mood weather items c →
      ∃ d, d ∈ items ∧ s = snapshot d := by
    intro c hmem
    simp only [slotPick] at hmem
    cases hp : pick_from mood weather (bucket items c) with
    | none => rw [hp] at hmem; cases hmem
    | some d =>
      rw [hp] at hmem
      dsimp only at hmem
      by_cases hd : d.isEmpty = true
      · rw [if_pos hd] at hmem; cases hmem
      · rw [if_neg hd] at hmem
        have := List.mem_singleton.mp hmem
        exact ⟨d, (mem_of_bucket (pick_from_mem hp)).1, this⟩
  rw [assemble_closed] at hs
  simp only [List.mem_append] at hs
  rcases hs with ((h | h) | h) | h
  · exact single "top" h
  · exact single "bottom" h
  · exact single "footwear" h
  · by_cases hw : weatherCold weather = true
    · rw [if_pos hw] at h
      exact single "outerwear" h
    · rw [if_neg hw] at h
      cases h

/-! Claims. -/

/-- Claim C1, corrected.  The claim as stated fails: with a supplied
but *empty* mood string, `pick_from` skips the mood branch entirely
(Python truthiness of `if req.mood:`), even when the bucket contains a
mood match.  With mood "present" strengthened to "present and
non-empty" (`moodApplies`), the stated precedence holds: if the
(non-empty) mood has a match in the bucket, the pick is the first mood
match, for every weather value; otherwise the pick is exactly what it
would be with no mood at all (the weather rule); and when the weather
is also absent, empty or unrecognized, the pick is the bucket's first
item. -/
theorem pick_from_precedence (mood weather : Option String) (l : List Doc)
    (hl : l ≠ []) :
    (moodApplies mood l = true →
      pick_from mood weather l = l.find? (moodMatch (moodText mood))) ∧
    (moodApplies mood l = false →
      pick_from mood weather l = pick_from none weather l) ∧
    (weatherRecognized weather = false → pick_from none weather l = l.head?) := by
  cases l with
  | nil => exact absurd rfl hl
  | cons x t =>
    refine ⟨?_, ?_, ?_⟩
    · intro h
      obtain ⟨d, h1, h2⟩ := moodPickOf_of_applies h
      simp only [pick_from, h1]
      exact h2.symm
    · intro h
      simp only [pick_from, moodPickOf_of_not_applies h]
      rfl
    · intro h
      simp only [pick_from, weatherPickOf_of_not_recognized h]
      rfl

/-- Witness for C1 at the spec's own example: mood "feeling blue
today" picks the first (blue) mood match even under cold weather. -/
theorem pick_from_precedence_witness :
    pick_from (some "feeling blue today") (some "cold") [itemRedTee, itemBlue] =
      List.find? (moodMatch (moodText (some "feeling blue today")))
        [itemRedTee, itemBlue] ∧
    List.find? (moodMatch (moodText (some "feeling blue today")))
        [itemRedTee, itemBlue] = some itemBlue :=
  ⟨(pick_from_precedence (some "feeling blue today") (some "cold")
      [itemRedTee, itemBlue] (by decide)).1 (by decide), by decide⟩

/-- Counterexample to C1 as stated: mood is present (`some ""`) and
the bucket contains a mood match (the empty color of the second item
is a substring of the mood text), yet `pick_from` does not return that
first mood match — it falls through to the first item of the
bucket. -/
theorem pick_from_precedence_counterexample :
    pick_from (some "") none [itemColorA, itemColorEmpty] = some itemColorA ∧
    List.find? (moodMatch (moodText (some ""))) [itemColorA, itemColorEmpty] =
      some itemColorEmpty ∧
    itemColorA ≠ itemColorEmpty :=
  ⟨rfl, by decide, by decide⟩

/-- Claim C2, confirmed.  With no applicable mood match, a weather
lower-casing to cold/chilly picks the first item of maximal warmth, a
weather lower-casing to hot/warm the first item of minimal warmth
(both with the bucket's original order as tie-break, expressed as a
first-match scan), and an absent warmth counts as 0. -/
theorem pick_from_weather_rule (mood : Option String) (w : String) (l : List Doc)
    (hl : l ≠ []) (hm : moodApplies mood l = false) :
    ((lowerStr w = "cold" ∨ lowerStr w = "chilly") →
      pick_from mood (some w) l =
        l.find? fun e => l.all fun y => decide (getWarmth y ≤ getWarmth e)) ∧
    ((lowerStr w = "hot" ∨ lowerStr w = "warm") →
      pick_from mood (some w) l =
        l.find? fun e => l.all fun y => decide (getWarmth e ≤ getWarmth y)) ∧
    (∀ d : Doc, List.lookup "warmth" d = none → getWarmth d = 0) := by
  cases l with
  | nil => exact absurd rfl hl
  | cons x t =>
    refine ⟨?_, ?_, fun d hd => by simp [getWarmth, hd]⟩
    · intro hw
      have hwne : w ≠ "" := by
        intro he
        subst he
        rcases hw with h | h <;> exact absurd (lowerStr_empty.symm.trans h) (by decide)
      have hcontains : (["cold", "chilly"].contains (lowerStr w)) = true := by
        rcases hw with h | h <;> rw [h] <;> decide
      obtain ⟨d, hhead, hmem, hmin, hfind⟩ :=
        head_sortByKey (fun i => -(getWarmth i)) (x :: t) (by simp)
      have hwp : weatherPickOf (some w) (x :: t) = some d := by
        simp only [weatherPickOf, if_neg hwne, if_pos hcontains]
        exact hhead
      simp only [pick_from, moodPickOf_of_not_applies hm, hwp]
      have hpt : ∀ e ∈ x :: t,
          ((x :: t).all fun y => decide (getWarmth y ≤ getWarmth e)) =
            decide (-(getWarmth e) ≤ -(getWarmth d)) := by
        intro e he
        refine Bool.eq_iff_iff.mpr ?_
        simp only [List.all_eq_true, decide_eq_true_eq]
        constructor
        · intro hall
          have := hall d hmem
          omega
        · intro hde y hy
          have := hmin y hy
          omega
      rw [find?_congr_of_mem hpt, hfind]
    · intro hw
      have hwne : w ≠ "" := by
        intro he
        subst he
        rcases hw with h | h <;> exact absurd (lowerStr_empty.symm.trans h) (by decide)
      have hnc : (["cold", "chilly"].contains (lowerStr w)) = false := by
        rcases hw with h | h <;> rw [h] <;> decide
      have hcontains : (["hot", "warm"].contains (lowerStr w)) = true := by
        rcases hw with h | h <;> rw [h] <;> decide
      obtain ⟨d, hhead, hmem, hmin, hfind⟩ :=
        head_sortByKey getWarmth (x :: t) (by simp)
      have hwp : weatherPickOf (some w) (x :: t) = some d := by
        simp only [weatherPickOf, if_neg hwne, hnc, if_pos hcontains]
        simp only [Bool.false_eq_true, if_false]
        exact hhead
      simp only [pick_from, moodPickOf_of_not_applies hm, hwp]
      have hpt : ∀ e ∈ x :: t,
          ((x :: t).all fun y => decide (getWarmth e ≤ getWarmth y)) =
            decide (getWarmth e ≤ getWarmth d) := by
        intro e he
        refine Bool.eq_iff_iff.mpr ?_
        simp only [List.all_eq_true, decide_eq_true_eq]
        constructor
        · intro hall
          exact hall d hmem
        · intro hde y hy
          exact le_trans hde (hmin y hy)
      rw [find?_congr_of_mem hpt, hfind]

/-- Witness for C2 at the spec's example bucket (warmths 2, 8, 5):
cold weather selects the warmth-8 item. -/
theorem pick_from_weather_rule_witness :
    pick_from none (some "cold") [itemRedTee, itemBlue, itemW5] =
      List.find?
        (fun e => [itemRedTee, itemBlue, itemW5].all
          fun y => decide (getWarmth y ≤ getWarmth e))
        [itemRedTee, itemBlue, itemW5] ∧
    pick_from none (some "cold") [itemRedTee, itemBlue, itemW5] = some itemBlue :=
  ⟨(pick_from_weather_rule none "cold" [itemRedTee, itemBlue, itemW5]
      (by decide) (by decide)).1 (Or.inl (by decide)), by decide⟩

/-- Claim C3, confirmed.  Whenever at least one of the top, bottom or
footwear buckets is non-empty (which forces a non-empty wardrobe),
`generate_outfit` succeeds with a non-empty selection — it never
reaches the InvalidState failure. -/
theorem generate_succeeds_of_core_bucket (req : Request) (items : List Doc)
    (h : bucket items "top" ≠ [] ∨ bucket items "bottom" ≠ [] ∨
      bucket items "footwear" ≠ []) :
    ∃ r, (generate_outfit req items).1 = Except.ok r ∧ r.items ≠ [] := by
  have hitems : items ≠ [] := by
    rintro rfl
    rcases h with h | h | h <;> exact h rfl
  have hassemble : assemble req.mood req.weather items ≠ [] := by
    intro heq
    rw [assemble_closed] at heq
    simp only [List.append_eq_nil] at heq
    rcases h with h | h | h
    · obtain ⟨d, _, hs⟩ :=
        slotPick_of_bucket_ne_nil req.mood req.weather items "top" (by decide) h
      rw [hs] at heq
      cases heq.1.1.1
    · obtain ⟨d, _, hs⟩ :=
        slotPick_of_bucket_ne_nil req.mood req.weather items "bottom" (by decide) h
      rw [hs] at heq
      cases heq.1.1.2
    · obtain ⟨d, _, hs⟩ :=
        slotPick_of_bucket_ne_nil req.mood req.weather items "footwear" (by decide) h
      rw [hs] at heq
      cases heq.1.2
  rw [generate_outfit_ok req items hitems hassemble]
  exact ⟨_, rfl, hassemble⟩

/-- Witness for C3: one top item suffices for a successful non-empty
selection. -/
theorem generate_succeeds_of_core_bucket_witness :
    ∃ r, (generate_outfit reqBold [itemRedTee]).1 = Except.ok r ∧ r.items ≠ [] :=
  generate_succeeds_of_core_bucket reqBold [itemRedTee] (Or.inl (by decide))

/-- Claim C4, confirmed.  On an empty fetched wardrobe the endpoint
fails with the NotFound error (HTTP 404, detail "No wardrobe items
found") and nothing is selected or persisted. -/
theorem generate_notFound_on_empty (req : Request) :
    generate_outfit req [] =
      (Except.error (GenError.notFound "No wardrobe items found"), []) := rfl

/-- Claim C5, confirmed.  On a non-empty wardrobe, an empty assembled
selection yields the InvalidState error (HTTP 400, detail "Could not
compose an outfit from wardrobe") with nothing persisted; and the
selection is indeed empty when the top, bottom and footwear buckets
are all empty and the weather is not cold/chilly. -/
theorem generate_invalid_of_empty_selection (req : Request) (items : List Doc)
    (hne : items ≠ []) :
    (assemble req.mood req.weather items = [] →
      generate_outfit req items =
        (Except.error
          (GenError.invalidState "Could not compose an outfit from wardrobe"), [])) ∧
    (bucket items "top" = [] → bucket items "bottom" = [] →
      bucket items "footwear" = [] → weatherCold req.weather = false →
      assemble req.mood req.weather items = []) := by
  refine ⟨fun h => generate_outfit_invalid req items hne h, ?_⟩
  intro ht hb hf hw
  rw [assemble_closed,
    slotPick_of_bucket_nil req.mood req.weather items "top" ht,
    slotPick_of_bucket_nil req.mood req.weather items "bottom" hb,
    slotPick_of_bucket_nil req.mood req.weather items "footwear" hf,
    if_neg (by simp [hw])]
  rfl

/-- Witness for C5: a wardrobe holding only an accessory under hot
weather fails with InvalidState. -/
theorem generate_invalid_of_empty_selection_witness :
    generate_outfit reqHot [itemAccessory] =
      (Except.error
        (GenError.invalidState "Could not compose an outfit from wardrobe"), []) :=
  (generate_invalid_of_empty_selection reqHot [itemAccessory] (by decide)).1
    ((generate_invalid_of_empty_selection reqHot [itemAccessory] (by decide)).2
      (by decide) (by decide) (by decide) (by decide))

/-- Claim C6, confirmed.  A successful response's items are the
assembled selection; the assembly is the concatenation of the
Pick-one snapshots of top, bottom, footwear in that fixed order; and
the outerwear slot is appended exactly when the weather is truthy and
lower-cases to cold/chilly — otherwise the selection consists of the
three core slots only. -/
theorem generate_assembles_slots_in_order (req : Request) (items : List Doc) :
    (∀ r, (generate_outfit req items).1 = Except.ok r →
      r.items = assemble req.mood req.weather items) ∧
    assemble req.mood req.weather items =
      slotPick req.mood req.weather items "top" ++
        slotPick req.mood req.weather items "bottom" ++
        slotPick req.mood req.weather items "footwear" ++
        (if weatherCold req.weather = true then
          slotPick req.mood req.weather items "outerwear"
         else []) ∧
    (weatherCold req.weather = false →
      assemble req.mood req.weather items =
        slotPick req.mood req.weather items "top" ++
          slotPick req.mood req.weather items "bottom" ++
          slotPick req.mood req.weather items "footwear") := by
  refine ⟨?_, assemble_closed req.mood req.weather items, ?_⟩
  · intro r hr
    by_cases h1 : items = []
    · subst h1
      exact Except.noConfusion hr
    · by_cases h2 : assemble req.mood req.weather items = []
      · rw [generate_outfit_invalid req items h1 h2] at hr
        exact Except.noConfusion hr
      · rw [generate_outfit_ok req items h1 h2] at hr
        injection hr with h
        subst h
        rfl
  · intro hw
    rw [assemble_closed req.mood req.weather items, if_neg (by simp [hw])]
    simp

/-- Witness for C6: under chilly weather the selection is the top
snapshot followed by the outerwear snapshot. -/
theorem generate_assembles_slots_in_order_witness :
    (⟨[snapshot itemRedTee, snapshot itemCoat],
        "Auto outfit - style / chilly"⟩ : Response).items =
      assemble reqChilly.mood reqChilly.weather [itemRedTee, itemCoat] :=
  (generate_assembles_slots_in_order reqChilly [itemRedTee, itemCoat]).1
    ⟨[snapshot itemRedTee, snapshot itemCoat], "Auto outfit - style / chilly"⟩ rfl

/-- Claim C7, confirmed.  The persistence log of a call is empty on
both failure paths and holds exactly the one outfit record — owner,
title, the successful selection, and the echoed request fields — on
success, and a successful selection is never empty. -/
theorem generate_persists_once (req : Request) (items : List Doc) :
    ((generate_outfit req items).2 =
      match (generate_outfit req items).1 with
      | Except.ok r => [⟨req.email, r.title, r.items, req.mood, req.weather, req.event⟩]
      | Except.error _ => []) ∧
    ∀ r, (generate_outfit req items).1 = Except.ok r → r.items ≠ [] := by
  by_cases h1 : items = []
  · subst h1
    exact ⟨rfl, fun r hr => Except.noConfusion hr⟩
  · by_cases h2 : assemble req.mood req.weather items = []
    · rw [generate_outfit_invalid req items h1 h2]
      exact ⟨rfl, fun r hr => Except.noConfusion hr⟩
    · rw [generate_outfit_ok req items h1 h2]
      refine ⟨rfl, ?_⟩
      intro r hr
      injection hr with h
      subst h
      exact h2

/-- Witness for C7: on a successful call the log is the single record
matching the response, whose selection is non-empty. -/
theorem generate_persists_once_witness :
    ((generate_outfit reqBold [itemRedTee]).2 =
      match (generate_outfit reqBold [itemRedTee]).1 with
      | Except.ok r =>
          [⟨reqBold.email, r.title, r.items, reqBold.mood, reqBold.weather,
            reqBold.event⟩]
      | Except.error _ => []) ∧
    (⟨[snapshot itemRedTee], "Auto outfit - bold / weather"⟩ : Response).items ≠ [] :=
  ⟨(generate_persists_once reqBold [itemRedTee]).1,
   (generate_persists_once reqBold [itemRedTee]).2
     ⟨[snapshot itemRedTee], "Auto outfit - bold / weather"⟩ rfl⟩

/-- Claim C8, confirmed.  A snapshot holds exactly the item's
attributes other than the internal `_id`; and every item of a
successful selection (which is also what is persisted, by C7's
equation) is the snapshot of some wardrobe document and never carries
an `_id` key. -/
theorem snapshot_keeps_all_but_id :
    (∀ (d : Doc) (k : String) (v : Val),
      ((k, v) ∈ snapshot d) ↔ ((k, v) ∈ d ∧ k ≠ "_id")) ∧
    (∀ (req : Request) (items : List Doc) (r : Response),
      (generate_outfit req items).1 = Except.ok r →
      ∀ s ∈ r.items, ∃ d, d ∈ items ∧ s = snapshot d ∧
        List.lookup "_id" s = none) := by
  constructor
  · intro d k v
    simp [snapshot, List.mem_filter]
  · intro req items r hr s hs
    have hsel : s ∈ assemble req.mood req.weather items := by
      by_cases h1 : items = []
      · subst h1
        exact absurd hr (fun h => Except.noConfusion h)
      · by_cases h2 : assemble req.mood req.weather items = []
        · rw [generate_outfit_invalid req items h1 h2] at hr
          exact absurd hr (fun h => Except.noConfusion h)
        · rw [generate_outfit_ok req items h1 h2] at hr
          injection hr with h
          subst h
          exact hs
    obtain ⟨d, hd, rfl⟩ := mem_assemble hsel
    exact ⟨d, hd, rfl, lookup_snapshot_id d⟩

/-- Witness for C8: the red tee's snapshot keeps its color and drops
its store-assigned identifier. -/
theorem snapshot_keeps_all_but_id_witness :
    ((("color", Val.s "red") ∈ snapshot itemRedTee) ↔
      ((("color", Val.s "red") ∈ itemRedTee) ∧ "color" ≠ "_id")) ∧
    (∃ d, d ∈ [itemRedTee] ∧ snapshot itemRedTee = snapshot d ∧
      List.lookup "_id" (snapshot itemRedTee) = none) :=
  ⟨snapshot_keeps_all_but_id.1 itemRedTee "color" (Val.s "red"),
   snapshot_keeps_all_but_id.2 reqBold [itemRedTee]
     ⟨[snapshot itemRedTee], "Auto outfit - bold / weather"⟩ rfl
     (snapshot itemRedTee) (by simp)⟩

/-- Claim C9, corrected.  The claim as stated fails: a supplied but
*empty* mood (or weather) string is replaced by the default literal
(Python `or` falls back on `""` as well as on `None`).  Amended to
default on an absent *or empty* field, the title format holds: every
successful title is "Auto outfit - ", the mood (or "style"), " / ",
and the weather (or "weather"). -/
theorem generate_title_format (req : Request) (items : List Doc) (r : Response)
    (hr : (generate_outfit req items).1 = Except.ok r) :
    r.title = "Auto outfit - " ++ orDefault req.mood "style" ++ " / " ++
      orDefault req.weather "weather" := by
  by_cases h1 : items = []
  · subst h1
    exact absurd hr (fun h => Except.noConfusion h)
  · by_cases h2 : assemble req.mood req.weather items = []
    · rw [generate_outfit_invalid req items h1 h2] at hr
      exact absurd hr (fun h => Except.noConfusion h)
    · rw [generate_outfit_ok req items h1 h2] at hr
      injection hr with h
      subst h
      rfl

/-- Witness for C9 at the claim's instance: mood "bold" and absent
weather give exactly "Auto outfit - bold / weather". -/
theorem generate_title_format_witness :
    (⟨[snapshot itemRedTee], "Auto outfit - bold / weather"⟩ : Response).title =
      "Auto outfit - " ++ orDefault reqBold.mood "style" ++ " / " ++
        orDefault reqBold.weather "weather" ∧
    (⟨[snapshot itemRedTee], "Auto outfit - bold / weather"⟩ : Response).title =
      "Auto outfit - bold / weather" :=
  ⟨generate_title_format reqBold [itemRedTee]
      ⟨[snapshot itemRedTee], "Auto outfit - bold / weather"⟩ rfl, rfl⟩

/-- Counterexample to C9 as stated: with the supplied mood `""` the
title contains the literal "style", not the supplied (empty) mood. -/
theorem generate_title_format_counterexample :
    (generate_outfit ⟨"u@example.com", some "", none, none⟩ [itemRedTee]).1 =
      Except.ok ⟨[snapshot itemRedTee], "Auto outfit - style / weather"⟩ ∧
    "Auto outfit - style / weather" ≠ "Auto outfit -  / weather" :=
  ⟨rfl, by decide⟩

/-- Claim C10, corrected.  The claim as stated fails: it needs mood to
be present *and non-empty*, because Python truthiness skips the mood
branch for `some ""` even though the empty color is a substring of the
empty mood text.  Amended accordingly: for a non-empty mood, an item
with an absent/empty color (or an empty-string tag) is always a mood
match, so when a bucket holds such an item the pick is the bucket's
first mood match, independently of the weather — the weather rule is
never consulted. -/
theorem empty_color_always_mood_matches (m : String) (hm : m ≠ "")
    (weather : Option String) (l : List Doc) (d : Doc) (hd : d ∈ l)
    (hempty : getColor d = "" ∨ "" ∈ getTags d) :
    moodMatch (lowerStr m) d = true ∧
    pick_from (some m) weather l = l.find? (moodMatch (lowerStr m)) ∧
    l.find? (moodMatch (lowerStr m)) ≠ none := by
  have hmatch : moodMatch (lowerStr m) d = true := by
    rcases hempty with h | h
    · simp [moodMatch, h, lowerStr_empty, strIn_empty]
    · have htag : (getTags d).any (fun t => strIn (lowerStr t) (lowerStr m)) = true :=
        List.any_eq_true.mpr ⟨"", h, by simp [lowerStr_empty, strIn_empty]⟩
      simp [moodMatch, htag]
  have happ : moodApplies (some m) l = true := by
    simp only [moodApplies, if_neg hm]
    exact List.any_eq_true.mpr ⟨d, hd, hmatch⟩
  obtain ⟨d0, h1, h2⟩ := moodPickOf_of_applies happ
  refine ⟨hmatch, ?_, ?_⟩
  · cases l with
    | nil => cases hd
    | cons x t =>
      simp only [pick_from, h1]
      exact h2.symm
  · show l.find? (moodMatch (moodText (some m))) ≠ none
    rw [h2]
    exact fun h => Option.noConfusion h

/-- Witness for C10: a colorless top is a mood match for mood "zzz"
and is picked ahead of the weather rule even under cold weather. -/
theorem empty_color_always_mood_matches_witness :
    moodMatch (lowerStr "zzz") itemNoColor = true ∧
    pick_from (some "zzz") (some "cold") [itemNoColor] =
      List.find? (moodMatch (lowerStr "zzz")) [itemNoColor] ∧
    List.find? (moodMatch (lowerStr "zzz")) [itemNoColor] ≠ none :=
  empty_color_always_mood_matches "zzz" (by decide) (some "cold") [itemNoColor]
    itemNoColor (by simp) (Or.inl (by decide))

/-- Counterexample to C10 as stated: mood is present (`some ""`), the
first item's color is absent (so it is a mood match for the empty mood
text), yet the weather rule *is* reached and selects the other,
warmer item. -/
theorem empty_color_always_mood_matches_counterexample :
    pick_from (some "") (some "cold") [itemNoColor, itemW5] = some itemW5 ∧
    moodMatch (moodText (some "")) itemNoColor = true ∧
    itemW5 ≠ itemNoColor :=
  ⟨rfl, by decide, by decide⟩

end Mazzura
